import Mathlib

/-!
Verification of the Vinted camera/drone/DJ-gear deal-finder bot
(`src/main.py`): a shallow embedding of its keyword filter engine,
bundle/variant classifier, market-data profit computation, description
quality filter, pagination loop, and per-listing tracking pipeline,
followed by theorems settling the claims of the specification.

Conventions of the embedding:
* Python strings are Lean `String`s; `s.lower()` is `lowerStr`
  (ASCII lowering, which coincides with Python on the ASCII data used
  throughout the catalog); the Python substring test `a in b` is
  `inStr a b`.
* Python float arithmetic is modelled with exact rationals `ℚ`; every
  numeric literal in the catalog is exactly representable, so the
  modelled values coincide with those of the source.
* A Python function that may raise inside a `try` whose `except`
  supplies a fallback is modelled with `Option`, the fallback applied
  at the match.
* Filter reasons, which the source builds with f-strings, are modelled
  by inductive reason types carrying the same payload (the matched
  term), so that which-term-was-reported is preserved.
-/

/-- ASCII lowercasing of a string, modelling Python `str.lower()` on the
ASCII text this program works with. -/
def lowerStr (s : String) : String :=
  String.mk (s.toList.map Char.toLower)

/-- Is `n` a contiguous sublist of `h`?  Executable scan used to model
the Python substring operator. -/
def subList (n : List Char) : List Char → Bool
  | [] => n.isEmpty
  | c :: rest => n.isPrefixOf (c :: rest) || subList n rest

/-- The Python test `needle in haystack` on strings. -/
def inStr (needle hay : String) : Bool :=
  subList needle.toList hay.toList

/-- Split a character list at every occurrence of `sep`, modelling
Python `str.split(sep)` (which keeps empty parts). -/
def splitOnChar (sep : Char) : List Char → List Char → List (List Char)
  | [], cur => [cur.reverse]
  | c :: rest, cur =>
    if c = sep then cur.reverse :: splitOnChar sep rest []
    else splitOnChar sep rest (c :: cur)

/-- Left-to-right non-overlapping replacement of `pat` by `rep`,
modelling Python `str.replace`; `fuel` bounds the recursion (each step
consumes at least one character when `pat` is nonempty). -/
def replaceFuel (pat rep : List Char) : Nat → List Char → List Char
  | 0, s => s
  | _, [] => []
  | fuel + 1, c :: rest =>
    if pat ≠ [] ∧ pat.isPrefixOf (c :: rest) then
      rep ++ replaceFuel pat rep fuel ((c :: rest).drop pat.length)
    else c :: replaceFuel pat rep fuel rest

/-- Python `s.replace(pat, rep)` on character lists. -/
def replaceSub (pat rep s : List Char) : List Char :=
  replaceFuel pat rep s.length s

/-- Parse a nonempty all-digit character list as a natural number;
`none` models the exception Python `float(...)` raises on anything
else.  (Python `float` also accepts decimal points, but every value in
the catalog data is a natural number.) -/
def digitsToNat? (l : List Char) : Option Nat :=
  if l = [] then none
  else if l.all Char.isDigit then
    some (l.foldl (fun acc c => acc * 10 + (c.toNat - 48)) 0)
  else none

/-- Python `str.split()` (whitespace split, no empty parts), as used on
the single-space-separated keyword phrases. -/
def splitWords (s : String) : List String :=
  ((splitOnChar ' ' s.toList []).filter (fun w => w ≠ [])).map String.mk

/-- `CRITICAL_EXCLUSIONS_TITLE` from src/main.py (lines 55-74): terms
whose presence in a title rejects the listing outright. -/
def CRITICAL_EXCLUSIONS_TITLE : List String := [
  "broken", "damaged", "faulty", "not working", "for parts", "spares", "repair",
  "cracked", "water damage", "dead", "replica", "fake", "poor condition",
  "smashed",
  "case", "case only", "protective case", "hard case", "soft case", "carrying case",
  "bag", "bag only", "carry bag", "storage bag", "travel bag", "shoulder bag",
  "mount", "mount only", "mounting", "bracket", "holder", "stand",
  "battery", "battery only", "batteries", "charger", "charger only",
  "cable", "cable only", "usb cable", "lead",
  "replacement", "spare part", "spare parts", "component",
  "housing", "frame", "chassis", "shell", "body only",
  "lens", "lens only", "lens cap", "filter", "filter only",
  "remote", "remote only", "controller only", "transmitter only",
  "propeller", "propellers", "props", "blades", "blade",
  "gimbal", "gimbal only", "stabilizer only",
  "screen protector", "protector", "guard",
  "box", "empty box", "just box", "box only", "packaging",
  "manual", "instructions", "guide only", "papers",
  "accessories only", "accessory", "add on", "addon"]

/-- `CRITICAL_EXCLUSIONS_DESCRIPTION` from src/main.py (lines 77-96). -/
def CRITICAL_EXCLUSIONS_DESCRIPTION : List String := [
  "broken", "damaged", "faulty", "not working", "doesnt work", "doesn\x27t work",
  "for parts", "spares", "needs repair", "requires repair",
  "water damage", "water damaged", "dead", "wont turn on", "won\x27t turn on",
  "poor condition", "bad condition", "replica", "fake", "imitation", "copy",
  "spares or repair", "spares or repairs", "parts only", "for spares",
  "smashed", "smashed screen", "screen smashed", "cracked screen",
  "screen broken", "broken screen", "display broken", "display cracked",
  "no power", "wont power on", "does not power on", "power issue",
  "battery dead", "battery faulty", "battery issue", "wont charge",
  "motor broken", "motor issue", "motor not working", "motor faulty",
  "gimbal broken", "gimbal issue", "gimbal not working", "gimbal faulty",
  "camera broken", "camera issue", "camera not working", "camera faulty",
  "sensor broken", "sensor issue", "sensor not working", "sensor faulty",
  "fly away", "lost connection", "connection lost", "signal lost",
  "crashed", "crash damage", "impact damage", "dropped",
  "missing parts", "parts missing", "incomplete", "untested",
  "red light", "error light", "flashing red", "warning light",
  "firmware issue", "software issue", "update failed", "bricked"]

/-- One entry of `PRODUCT_SPECS`: keyword set, per-product exclusions,
and the must-contain set. -/
structure ProductSpec where
  keywords : List String
  exclude : List String
  must_contain : List String
deriving DecidableEq, Repr

/-- `PRODUCT_SPECS` from src/main.py (lines 98-189), as an association
list keyed by product key. -/
def PRODUCT_SPECS : List (String × ProductSpec) := [
  ("gopro hero 12",
   { keywords := ["hero 12", "hero12", "12 black", "gopro 12", "12 gopro", "hero 12 black", "12 hero", "go pro 12"],
     exclude := ["hero 11", "hero 10", "hero 9", "hero 8", "hero 7", "11", "10 ", "9 ", "8 ", "7 ", "case", "mount", "battery", "accessory"],
     must_contain := ["12"] }),
  ("gopro hero 11",
   { keywords := ["hero 11", "hero11", "11 black", "gopro 11", "11 gopro", "hero 11 black", "11 hero", "go pro 11"],
     exclude := ["hero 12", "hero 10", "hero 9", "hero 8", "hero 7", "12", "10 ", "9 ", "8 ", "7 ", "case", "mount", "battery", "accessory"],
     must_contain := ["11"] }),
  ("gopro hero 10",
   { keywords := ["hero 10", "hero10", "10 black", "gopro 10", "10 gopro", "hero 10 black", "10 hero", "go pro 10"],
     exclude := ["hero 12", "hero 11", "hero 9", "hero 8", "hero 7", "12", "11", "9 ", "8 ", "7 ", "case", "mount", "battery", "accessory"],
     must_contain := ["10"] }),
  ("gopro hero 9",
   { keywords := ["hero 9", "hero9", "9 black", "gopro 9", "9 gopro", "hero 9 black", "9 hero", "go pro 9"],
     exclude := ["hero 12", "hero 11", "hero 10", "hero 8", "hero 7", "12", "11", "10 ", "8 ", "7 ", "case", "mount", "battery", "accessory"],
     must_contain := ["9"] }),
  ("gopro hero 8",
   { keywords := ["hero 8", "hero8", "8 black", "gopro 8", "8 gopro", "hero 8 black", "8 hero", "go pro 8"],
     exclude := ["hero 12", "hero 11", "hero 10", "hero 9", "hero 7", "12", "11", "10 ", "9 ", "7 ", "case", "mount", "battery", "accessory"],
     must_contain := ["8"] }),
  ("dji mavic 2 pro",
   { keywords := ["mavic 2 pro", "mavic2 pro", "mavic 2pro", "2 pro drone", "dji 2 pro", "mavic pro 2", "mavic2pro"],
     exclude := ["mini", "air ", "case", "bag", "mavic 3", "mavic pro platinum", "battery", "propeller", "mavic air"],
     must_contain := ["mavic", "2", "pro"] }),
  ("dji air 2s",
   { keywords := ["air 2s", "air2s", "air 2 s", "dji 2s", "2s drone", "air2 s", "mavic air 2s"],
     exclude := ["mini", "mavic air 2", "case", "bag", "air 3", "battery", "propeller", "air 2 "],
     must_contain := ["air", "2s"] }),
  ("dji mini 3 pro",
   { keywords := ["mini 3 pro", "mini3 pro", "mini 3pro", "mini3pro", "dji mini 3", "3 pro drone", "mini pro 3"],
     exclude := ["mini 2", "mini 4", "case", "bag", "mini se", "battery", "propeller", "mini 3 "],
     must_contain := ["mini", "3", "pro"] }),
  ("dji mavic air 2",
   { keywords := ["mavic air 2", "mavic air2", "air 2 drone", "mavic 2 air", "dji air 2", "mavicair2", "mavic air 2 "],
     exclude := ["mini", "case", "bag", "air 2s", "mavic 3", "battery", "propeller", "2s"],
     must_contain := ["mavic", "air", "2"] }),
  ("dji mini 2",
   { keywords := ["mini 2", "mini2", "dji mini 2", "mini 2 drone", "mini2 drone", "dji 2 mini"],
     exclude := ["mini 3", "mini 4", "case", "bag", "mini se", "mini pro", "battery", "propeller", "3 pro"],
     must_contain := ["mini", "2"] }),
  ("pioneer ddj-flx10",
   { keywords := ["ddj-flx10", "ddj flx10", "flx10", "flx 10", "ddj flx 10", "pioneer flx10", "ddj-flx-10", "ddjflx10"],
     exclude := ["case", "bag", "cover", "flx6", "flx4", "flx 6", "flx 4", "stand"],
     must_contain := ["flx", "10"] }),
  ("pioneer ddj-1000",
   { keywords := ["ddj-1000", "ddj 1000", "ddj1000", "pioneer 1000", "ddj-1000srt", "ddj 1000 srt", "1000 controller"],
     exclude := ["ddj-800", "ddj-400", "case", "bag", "ddj-sx", "ddj-sz", "stand", "800", "400"],
     must_contain := ["ddj", "1000"] }),
  ("pioneer ddj-sx3",
   { keywords := ["ddj-sx3", "ddj sx3", "sx3", "ddj sx 3", "ddjsx3", "pioneer sx3", "ddj-sx-3", "sx 3 controller"],
     exclude := ["ddj-sb3", "case", "bag", "sx2", "sx ", "stand", "sb3", "sb 3"],
     must_contain := ["sx", "3"] }),
  ("pioneer ddj-800",
   { keywords := ["ddj-800", "ddj 800", "ddj800", "pioneer 800", "ddj-800 controller", "800 controller", "ddj 800 "],
     exclude := ["ddj-1000", "ddj-400", "case", "bag", "ddj-sx", "stand", "1000", "400"],
     must_contain := ["ddj", "800"] }),
  ("pioneer ddj-400",
   { keywords := ["ddj-400", "ddj 400", "ddj400", "pioneer 400", "ddj-400 controller", "400 controller", "ddj 400 "],
     exclude := ["ddj-800", "ddj-1000", "case", "bag", "ddj-200", "stand", "800", "1000", "200"],
     must_contain := ["ddj", "400"] }),
  ("pioneer ddj-sb3",
   { keywords := ["ddj-sb3", "ddj sb3", "sb3", "ddj sb 3", "ddjsb3", "pioneer sb3", "ddj-sb-3", "sb 3 controller"],
     exclude := ["ddj-sx3", "case", "bag", "sb2", "sb ", "stand", "sx3", "sx 3"],
     must_contain := ["sb", "3"] }),
  ("traktor s4",
   { keywords := ["traktor s4", "kontrol s4", "s4 mk3", "s4 mk2", "traktor kontrol s4", "ni s4", "s4 controller", "s4 mk 3", "s4 mk 2"],
     exclude := ["case", "bag", "s2", "s3", "s8", "stand", "s 2", "s 3", "s 8"],
     must_contain := ["s4"] })]

/-- Association-list lookup, modelling Python dict access. -/
def alistLookup {α : Type} (l : List (String × α)) (k : String) : Option α :=
  (l.find? (fun p => p.1 = k)).map Prod.snd

/-- The `parts_indicators` list local to `strict_product_match`
(src/main.py lines 348-351). -/
def parts_indicators : List String := [
  "only", "spare", "replacement", "accessory", "accessories",
  "part", "parts", "component", "addon", "add-on"]

/-- The accessory terms the parts-indicator check pairs with
(src/main.py line 353). -/
def parts_accessory_terms : List String := [
  "case", "bag", "mount", "battery", "charger", "cable", "propeller",
  "lens", "remote"]

/-- The rejection/acceptance reasons produced by `strict_product_match`;
each constructor corresponds to one `return` in the source and carries
the term the f-string interpolates. -/
inductive MatchReason where
  | productNotInSpecs
  | excludedTerm (term : String)
  | partsAccessories (indicator : String)
  | titleTooShort
  | noKeywordMatch
  | specExcluded (term : String)
  | missingRequiredTerm
  | passed
deriving DecidableEq, Repr

/-- `strict_product_match` from src/main.py (lines 330-399): the title
filter.  The stage order follows the source exactly: product-key lookup,
critical-exclusion scan (first match reported), parts-indicator check,
title-length check, keyword match, per-spec exclusion scan, and the
must-contain check.  The must-contain loop of the source breaks out of the
outer loop after its first iteration and the inner loop tests every
must-contain entry, so it accepts as soon as ANY entry of
`must_contain` occurs in the title; the embedding reproduces that. -/
def strict_product_match (title productKey : String) : Bool × MatchReason :=
  match alistLookup PRODUCT_SPECS productKey with
  | none => (false, .productNotInSpecs)
  | some spec =>
    match CRITICAL_EXCLUSIONS_TITLE.find? (fun term => inStr term (lowerStr title)) with
    | some term => (false, .excludedTerm term)
    | none =>
      match parts_indicators.find? (fun ind =>
          inStr ind (lowerStr title) &&
          parts_accessory_terms.any (fun excl => inStr excl (lowerStr title))) with
      | some ind => (false, .partsAccessories ind)
      | none =>
        if title.length < 10 then (false, .titleTooShort)
        else if spec.keywords.any (fun kw =>
            inStr (lowerStr kw) (lowerStr title) ||
            (splitWords (lowerStr kw)).all (fun w => inStr w (lowerStr title))) then
          match spec.exclude.find? (fun e => inStr (lowerStr e) (lowerStr title)) with
          | some e => (false, .specExcluded e)
          | none =>
            if spec.must_contain.isEmpty then (true, .passed)
            else if spec.must_contain.any (fun term => inStr (lowerStr term) (lowerStr title)) then
              (true, .passed)
            else (false, .missingRequiredTerm)
        else (false, .noKeywordMatch)

/-- The reasons produced by `check_description_quality`; constructors
correspond to the `return` statements of the source. -/
inductive DescReason where
  | noDescriptionToCheck
  | badCondition (term : String)
  | descriptionOK
deriving DecidableEq, Repr

/-- The three placeholder strings whitelisted by
`check_description_quality` (src/main.py line 403). -/
def description_whitelist : List String :=
  ["No description found on page", "Listing no longer available",
   "Could not scrape (bot detection)"]

/-- `check_description_quality` from src/main.py (lines 401-416).  The
argument is an `Option String`: `none` models Python `None` and, like
the empty string, is falsy under `not description`. -/
def check_description_quality (description : Option String) : Bool × DescReason :=
  match description with
  | none => (true, .noDescriptionToCheck)
  | some s =>
    if s = "" ∨ s ∈ description_whitelist then (true, .noDescriptionToCheck)
    else
      match CRITICAL_EXCLUSIONS_DESCRIPTION.find? (fun term => inStr term (lowerStr s)) with
      | some term => (false, .badCondition term)
      | none => (true, .descriptionOK)

/-- The fixed (non-parameterized) failure strings `scrape_vinted_description`
can return in place of a description (src/main.py lines 571, 575, 584,
600, 611). -/
def scrape_failure_fixed : List String :=
  ["No description found on page", "Listing no longer available",
   "Could not scrape (bot detection)", "Scrape timeout", "Max retries exceeded"]

/-- The set of strings `scrape_vinted_description` returns when it could
not obtain a description: the fixed placeholders plus the two templated
families from src/main.py lines 592 and 608. -/
def IsScrapeFailureString (s : String) : Prop :=
  s ∈ scrape_failure_fixed ∨
  (∃ code : Nat, s = "HTTP error " ++ toString code) ∨
  (∃ msg : String, s = "Scrape error: " ++ msg)

/-- `parse_bundle_type_from_title` from src/main.py (lines 418-442).
Each Python `if`-block ends in a `return`, so the sequence of `if`s is
an `else`-chain. -/
def parse_bundle_type_from_title (title productKey : String) : String :=
  if inStr "gopro" productKey then
    if inStr "creator" (lowerStr title) || inStr "creator edition" (lowerStr title) then "creator"
    else "standard"
  else if inStr "dji" productKey then
    if inStr "fly more" (lowerStr title) || inStr "flymore" (lowerStr title) ||
        inStr "combo" (lowerStr title) then
      "fly more"
    else "standard"
  else if inStr "traktor" productKey then
    if inStr "mk3" (lowerStr title) || inStr "mk 3" (lowerStr title) then "mk3"
    else if inStr "mk2" (lowerStr title) || inStr "mk 2" (lowerStr title) then "mk2"
    else "standard"
  else "standard"

/-- `parse_bundle_type_from_description` from src/main.py (lines
444-468).  Unlike the title variant, a family branch that finds no
marker falls through to the next check, ending at the final standard return;
hence conjunction guards. -/
def parse_bundle_type_from_description (description productKey : String) : String :=
  if description = "" then "standard"
  else if inStr "gopro" productKey &&
      (inStr "creator" (lowerStr description) || inStr "creator edition" (lowerStr description)) then
    "creator"
  else if inStr "dji" productKey &&
      (inStr "fly more" (lowerStr description) || inStr "flymore" (lowerStr description) ||
       inStr "combo" (lowerStr description)) then
    "fly more"
  else if inStr "traktor" productKey &&
      (inStr "mk3" (lowerStr description) || inStr "mk 3" (lowerStr description)) then "mk3"
  else if inStr "traktor" productKey &&
      (inStr "mk2" (lowerStr description) || inStr "mk 2" (lowerStr description)) then "mk2"
  else "standard"

/-- One value of the `MARKET_DATA` nested dict: the two display strings. -/
structure MarketEntry where
  vinted : String
  list_price : String
deriving DecidableEq, Repr

/-- `MARKET_DATA` from src/main.py (lines 213-273): model key ->
bundle tag -> market entry. -/
def MARKET_DATA : List (String × List (String × MarketEntry)) := [
  ("gopro hero 12",
   [("standard", { vinted := "£320-400", list_price := "£340-380" }),
    ("creator", { vinted := "£380-450", list_price := "£400-430" })]),
  ("gopro hero 11",
   [("standard", { vinted := "£250-320", list_price := "£270-300" }),
    ("creator", { vinted := "£300-370", list_price := "£320-350" })]),
  ("gopro hero 10",
   [("standard", { vinted := "£200-270", list_price := "£220-250" })]),
  ("gopro hero 9",
   [("standard", { vinted := "£140-200", list_price := "£160-185" })]),
  ("gopro hero 8",
   [("standard", { vinted := "£110-160", list_price := "£125-145" })]),
  ("dji mavic 2 pro",
   [("standard", { vinted := "£650-900", list_price := "£700-850" }),
    ("fly more", { vinted := "£800-1100", list_price := "£850-1000" })]),
  ("dji air 2s",
   [("standard", { vinted := "£500-700", list_price := "£550-650" }),
    ("fly more", { vinted := "£650-850", list_price := "£700-800" })]),
  ("dji mini 3 pro",
   [("standard", { vinted := "£400-550", list_price := "£450-520" }),
    ("fly more", { vinted := "£550-700", list_price := "£600-670" })]),
  ("dji mavic air 2",
   [("standard", { vinted := "£350-500", list_price := "£400-470" }),
    ("fly more", { vinted := "£480-630", list_price := "£520-600" })]),
  ("dji mini 2",
   [("standard", { vinted := "£220-330", list_price := "£250-310" }),
    ("fly more", { vinted := "£300-420", list_price := "£330-390" })]),
  ("pioneer ddj-flx10",
   [("standard", { vinted := "£1200-1600", list_price := "£1300-1500" })]),
  ("pioneer ddj-1000",
   [("standard", { vinted := "£800-1100", list_price := "£900-1050" })]),
  ("pioneer ddj-sx3",
   [("standard", { vinted := "£550-750", list_price := "£600-700" })]),
  ("pioneer ddj-800",
   [("standard", { vinted := "£450-650", list_price := "£500-600" })]),
  ("pioneer ddj-400",
   [("standard", { vinted := "£200-280", list_price := "£220-260" })]),
  ("pioneer ddj-sb3",
   [("standard", { vinted := "£180-250", list_price := "£200-240" })]),
  ("traktor s4",
   [("mk3", { vinted := "£550-750", list_price := "£600-700" }),
    ("mk2", { vinted := "£350-500", list_price := "£400-470" })])]

/-- The default returned by `get_market_data` when nothing is found
(src/main.py line 484). -/
def market_data_default : MarketEntry :=
  { vinted := "Not available", list_price := "Not available" }

/-- The bundle tag `get_market_data` selects: the description-derived
classification unless it is "standard", else the title-derived one
(src/main.py line 476). -/
def market_bundle (modelKey title description : String) : String :=
  if parse_bundle_type_from_description description modelKey ≠ "standard" then
    parse_bundle_type_from_description description modelKey
  else parse_bundle_type_from_title title modelKey

/-- The dictionary part of `get_market_data` (src/main.py lines
478-484): look up the model, then the bundle, falling back to the
fallback "standard" entry of the model, then to the not-available default. -/
def market_lookup (modelKey bundle : String) : MarketEntry :=
  match alistLookup MARKET_DATA modelKey with
  | some entries =>
    match alistLookup entries bundle with
    | some e => e
    | none =>
      match alistLookup entries "standard" with
      | some e => e
      | none => market_data_default
  | none => market_data_default

/-- `get_market_data` from src/main.py (lines 470-484). -/
def get_market_data (modelKey title description : String) : MarketEntry :=
  market_lookup modelKey (market_bundle modelKey title description)

/-- The range parse of src/main.py lines 629-631: strip "£", split on
"-", parse both bounds.  Every numeral in `MARKET_DATA` is a natural
number, so Python `float(...)` is modelled by `digitsToNat?`; `none`
models the exception the parse raises. -/
def vinted_bounds (vs : String) : Option (Nat × Nat) :=
  match splitOnChar '-' (replaceSub ['£'] [] vs.toList) [] with
  | lo :: hi :: _ =>
    match digitsToNat? lo, digitsToNat? hi with
    | some l, some h => some (l, h)
    | _, _ => none
  | _ => none

/-- The else-arm parse of src/main.py line 634: strip "£" and ",",
rewrite "Not available" to "0", parse. -/
def vinted_single (vs : String) : Option Nat :=
  digitsToNat?
    (replaceSub "Not available".toList ['0']
      (replaceSub [','] [] (replaceSub ['£'] [] vs.toList)))

/-- The value `vinted_avg` the source computes, `none` when the parse
raises (caught by `except`, forcing profit 0). -/
def vinted_avg (vs : String) : Option ℚ :=
  if inStr "-" vs ∧ vs ≠ "Not available" then
    (vinted_bounds vs).map (fun p => ((p.1 : ℚ) + (p.2 : ℚ)) / 2)
  else
    (vinted_single vs).map (fun n => (n : ℚ))

/-- The profit `send_discord_notification` computes and displays
(src/main.py lines 617-637): the midpoint of the classified bundle
Vinted range minus the listing price, or 0 when the computation raises. -/
def notification_profit (modelKey title description : String) (price : ℚ) : ℚ :=
  match vinted_avg (get_market_data modelKey title description).vinted with
  | some avg => avg - price
  | none => 0

/-- One row of `PRICING_DATA`. -/
structure Pricing where
  max_buy : ℚ
  min_buy : ℚ
  target : ℚ
  resell : ℚ
  min_profit : ℚ
deriving DecidableEq, Repr

/-- `PRICING_DATA` from src/main.py (lines 192-210).  All catalog
values are exact in ℚ. -/
def PRICING_DATA : List (String × Pricing) := [
  ("gopro hero 12", { max_buy := 300, min_buy := 596/10, target := 149, resell := 360, min_profit := 100 }),
  ("gopro hero 11", { max_buy := 250, min_buy := 464/10, target := 116, resell := 290, min_profit := 80 }),
  ("gopro hero 10", { max_buy := 200, min_buy := 36, target := 90, resell := 235, min_profit := 70 }),
  ("gopro hero 9", { max_buy := 150, min_buy := 264/10, target := 66, resell := 175, min_profit := 60 }),
  ("gopro hero 8", { max_buy := 120, min_buy := 192/10, target := 48, resell := 135, min_profit := 50 }),
  ("dji mavic 2 pro", { max_buy := 600, min_buy := 1344/10, target := 336, resell := 820, min_profit := 250 }),
  ("dji air 2s", { max_buy := 500, min_buy := 1036/10, target := 259, resell := 620, min_profit := 180 }),
  ("dji mini 3 pro", { max_buy := 400, min_buy := 86, target := 215, resell := 520, min_profit := 150 }),
  ("dji mavic air 2", { max_buy := 350, min_buy := 728/10, target := 182, resell := 460, min_profit := 140 }),
  ("dji mini 2", { max_buy := 250, min_buy := 508/10, target := 127, resell := 310, min_profit := 100 }),
  ("pioneer ddj-flx10", { max_buy := 1000, min_buy := 242, target := 605, resell := 1400, min_profit := 400 }),
  ("pioneer ddj-1000", { max_buy := 800, min_buy := 1564/10, target := 391, resell := 950, min_profit := 300 }),
  ("pioneer ddj-sx3", { max_buy := 550, min_buy := 1036/10, target := 259, resell := 650, min_profit := 220 }),
  ("pioneer ddj-800", { max_buy := 450, min_buy := 86, target := 215, resell := 550, min_profit := 200 }),
  ("pioneer ddj-400", { max_buy := 220, min_buy := 36, target := 90, resell := 250, min_profit := 100 }),
  ("pioneer ddj-sb3", { max_buy := 200, min_buy := 334/10, target := 835/10, resell := 220, min_profit := 80 }),
  ("traktor s4", { max_buy := 500, min_buy := 1036/10, target := 259, resell := 650, min_profit := 220 })]

/-- Convenience accessor for the configured target list price of a product. -/
def pricing_target (productKey : String) : Option ℚ :=
  (alistLookup PRICING_DATA productKey).map Pricing.target

/-- Modelled from the spec: the quality score is described in sections
4.3 and 8 of the specification but no quality-score computation exists
in src/main.py (`send_discord_notification`, the cited lines 687-707,
builds the notification embed without any quality field; the score
lives in a sibling variant of this repository that is not under src/).
Per the spec: start at the neutral baseline 50, add the fixed increment
10 for each positive-condition phrase found (case-insensitively) in the
description, cap at 100; an absent or empty description scores exactly
50.  The positive-indicator phrase list is a parameter (the spec gives
only examples such as "mint" and "box included"). -/
def quality_score (indicators : List String) (description : Option String) : Nat :=
  match description with
  | none => 50
  | some s =>
    if s = "" then 50
    else min 100 (50 + 10 * (indicators.filter (fun p => inStr (lowerStr p) (lowerStr s))).length)

/-- The number of distinct positive-indicator phrases found in the
description (0 when absent or empty). -/
def matched_indicators (indicators : List String) (description : Option String) : Nat :=
  match description with
  | none => 0
  | some s =>
    if s = "" then 0
    else (indicators.filter (fun p => inStr (lowerStr p) (lowerStr s))).length

/-- `MAX_PAGES_PER_SEARCH` from src/main.py line 43. -/
def MAX_PAGES_PER_SEARCH : Nat := 20

/-- `ITEMS_PER_PAGE` from src/main.py line 44. -/
def ITEMS_PER_PAGE : Nat := 40

/-- The page loop of `search_with_pagination` (src/main.py lines
728-757) on its no-transport-error path, with the search collaborator
modelled as a function from page number to the returned listings
(listings abstracted to their ids).  The loop walks pages
`page, page+1, ...` while `remaining` pages are left; an empty page
returns the accumulator immediately; otherwise the items of the page are
appended and the loop continues — the source has no
fewer-than-a-full-page stop.  (The retry/backoff arms of the source handle
raised transport errors only and are outside this model.) -/
def search_pages_loop (search : Nat → List Nat) (acc : List Nat) (page remaining : Nat) : List Nat :=
  match remaining with
  | 0 => acc
  | r + 1 =>
    if search page = [] then acc
    else search_pages_loop search (acc ++ search page) (page + 1) r

/-- `search_with_pagination` from src/main.py (lines 720-799), error-free
path: iterate pages 1..max_pages. -/
def search_with_pagination (search : Nat → List Nat) (maxPages : Nat) : List Nat :=
  search_pages_loop search [] 1 maxPages

/-- A listing as the tracking loop sees it, together with the two
external outcomes the loop depends on: the scraped description text
(the scrape always yields a string, possibly a failure placeholder)
and whether the Discord webhook call will succeed. -/
structure Listing where
  id : Nat
  title : String
  price : ℚ
  description : String
  notifyOk : Bool
deriving DecidableEq, Repr

/-- Observable events of the per-listing pipeline, in the order the
source performs them. -/
inductive Event where
  | skipTracked (id : Nat)
  | rejectTitle (id : Nat) (reason : MatchReason)
  | rejectDescription (id : Nat) (reason : DescReason)
  | insert (id : Nat)
  | notify (id : Nat) (ok : Bool)
deriving DecidableEq, Repr

/-- The per-listing body of `track_vinted_items` (src/main.py lines
965-1112), for one search query with product key `modelKey`.  The
database state is abstracted to the list of tracked listing ids (the
dedup key; `tracked_items.id` is the primary key).  Stage order follows
the source: dedup check (silent skip), title filter, description
scrape + quality check, insert, Discord notification.  Profit
previews and logging do not affect control flow and are omitted. -/
def process_item (modelKey : String) (tracked : List Nat) (l : Listing) :
    List Nat × List Event :=
  if l.id ∈ tracked then (tracked, [.skipTracked l.id])
  else if (strict_product_match l.title modelKey).1 = false then
    (tracked, [.rejectTitle l.id (strict_product_match l.title modelKey).2])
  else if (check_description_quality (some l.description)).1 = false then
    (tracked, [.rejectDescription l.id (check_description_quality (some l.description)).2])
  else (tracked ++ [l.id], [.insert l.id, .notify l.id l.notifyOk])

/-- The item loop of one cycle over the search results of a query: fold
`process_item` over the listings, accumulating the event trace. -/
def run_cycle (modelKey : String) (tracked : List Nat) :
    List Listing → List Nat × List Event
  | [] => (tracked, [])
  | l :: rest =>
    ((run_cycle modelKey (process_item modelKey tracked l).1 rest).1,
     (process_item modelKey tracked l).2 ++
       (run_cycle modelKey (process_item modelKey tracked l).1 rest).2)

/-- Does a listing pass both content filters (title and description)?
These depend only on the listing and the product key, not on the
database state. -/
def passes_filters (modelKey : String) (l : Listing) : Bool :=
  (strict_product_match l.title modelKey).1 &&
  (check_description_quality (some l.description)).1

/-- C1: the claim states that for a multi-term `must_contain` set,
`strict_product_match` returns true only if EVERY entry occurs in the
title (AND semantics).  The source code contradicts this (and its own
stated intent): its must-contain loop breaks after one success, so ANY
single entry suffices.  Evaluated at the failing input: the title
"Dji 2 pro drone quadcopter" is accepted for product "dji mavic 2 pro"
although the required term "mavic" does not occur in it — only the
proper subset containing "2" and "pro" of the must-contain set
["mavic", "2", "pro"] is present. -/
theorem c1_must_contain_is_any_not_all :
    strict_product_match "Dji 2 pro drone quadcopter" "dji mavic 2 pro"
      = (true, MatchReason.passed)
    ∧ inStr "mavic" (lowerStr "Dji 2 pro drone quadcopter") = false
    ∧ (alistLookup PRODUCT_SPECS "dji mavic 2 pro").map ProductSpec.must_contain
        = some ["mavic", "2", "pro"] := by
  refine ⟨by decide, by decide, by decide⟩

/-- C4: for every product key in the catalog (so the spec lookup
succeeds) and every title whose lowercase form contains at least one
term of `CRITICAL_EXCLUSIONS_TITLE`, the title filter rejects with the
FIRST matching term in list order reported as the reason.
`strict_product_match` consults neither price nor description, so the
result is independent of both. -/
theorem c4_first_exclusion_reported (title productKey : String) (spec : ProductSpec) (term : String)
    (hkey : alistLookup PRODUCT_SPECS productKey = some spec)
    (hfind : CRITICAL_EXCLUSIONS_TITLE.find? (fun t => inStr t (lowerStr title)) = some term) :
    strict_product_match title productKey = (false, MatchReason.excludedTerm term) := by
  unfold strict_product_match
  rw [hkey, hfind]

/-- C4 witness: the title "GoPro hero 11 with case" contains the
exclusion term "case" (the first match in list order) and is rejected
with exactly that term as the reason. -/
theorem c4_first_exclusion_reported_witness :
    strict_product_match "GoPro hero 11 with case" "gopro hero 11"
      = (false, MatchReason.excludedTerm "case") :=
  c4_first_exclusion_reported "GoPro hero 11 with case" "gopro hero 11"
    { keywords := ["hero 11", "hero11", "11 black", "gopro 11", "11 gopro", "hero 11 black", "11 hero", "go pro 11"],
      exclude := ["hero 12", "hero 10", "hero 9", "hero 8", "hero 7", "12", "10 ", "9 ", "8 ", "7 ", "case", "mount", "battery", "accessory"],
      must_contain := ["11"] }
    "case" (by decide) (by decide)

/-- C10: for every product key present in the product specs and every
title shorter than 10 characters that contains no title-exclusion term
and no parts indicator, `strict_product_match` rejects with the
title-too-short reason, regardless of whether the title matches the
keywords (the keyword check comes after the length check). -/
theorem c10_short_title_rejected (title productKey : String) (spec : ProductSpec)
    (hkey : alistLookup PRODUCT_SPECS productKey = some spec)
    (hlen : title.length < 10)
    (hexcl : ∀ t ∈ CRITICAL_EXCLUSIONS_TITLE, inStr t (lowerStr title) = false)
    (hind : ∀ i ∈ parts_indicators, inStr i (lowerStr title) = false) :
    strict_product_match title productKey = (false, MatchReason.titleTooShort) := by
  unfold strict_product_match
  have h1 : CRITICAL_EXCLUSIONS_TITLE.find? (fun t => inStr t (lowerStr title)) = none := by
    rw [List.find?_eq_none]
    intro t ht
    simp [hexcl t ht]
  have h2 : parts_indicators.find? (fun ind =>
      inStr ind (lowerStr title) &&
      parts_accessory_terms.any (fun excl => inStr excl (lowerStr title))) = none := by
    rw [List.find?_eq_none]
    intro i hi
    simp [hind i hi]
  rw [hkey, h1, h2]
  dsimp only
  rw [if_pos hlen]

/-- C10 witness: "mini 2" (6 characters) matches the keywords of
"dji mini 2" yet is rejected as too short. -/
theorem c10_short_title_rejected_witness :
    strict_product_match "mini 2" "dji mini 2" = (false, MatchReason.titleTooShort) :=
  c10_short_title_rejected "mini 2" "dji mini 2"
    { keywords := ["mini 2", "mini2", "dji mini 2", "mini 2 drone", "mini2 drone", "dji 2 mini"],
      exclude := ["mini 3", "mini 4", "case", "bag", "mini se", "mini pro", "battery", "propeller", "3 pro"],
      must_contain := ["mini", "2"] }
    (by decide) (by decide) (by decide) (by decide)

/-- C5 counterexample: the claim quantifies over every scrape-failure
placeholder string, but only three of them are whitelisted by
`check_description_quality`.  The dynamic placeholder
"Scrape error: [Errno 32] Broken pipe" (the string the scraper returns
when the fetch raises a broken-pipe error) is a scrape-failure string
yet is REJECTED, because the embedded exception text contains the
description-exclusion term "broken" — so a listing can be rejected
solely because its description could not be fetched. -/
theorem c5_scrape_error_rejected :
    IsScrapeFailureString "Scrape error: [Errno 32] Broken pipe"
    ∧ (check_description_quality (some "Scrape error: [Errno 32] Broken pipe")).1 = false
    ∧ check_description_quality (some "Scrape error: [Errno 32] Broken pipe")
        = (false, DescReason.badCondition "broken") := by
  refine ⟨Or.inr (Or.inr ⟨"[Errno 32] Broken pipe", rfl⟩), by decide, by decide⟩

/-- C5 amended: the description filter passes every description that is
empty, None, or one of the FIXED scrape-failure placeholder strings
("No description found on page", "Listing no longer available",
"Could not scrape (bot detection)", "Scrape timeout",
"Max retries exceeded"); only the dynamic "Scrape error: ..."
placeholders can be rejected, when the embedded exception message
contains a description-exclusion term. -/
theorem c5_fixed_placeholders_pass (d : Option String)
    (h : d = none ∨ d = some "" ∨ ∃ s ∈ scrape_failure_fixed, d = some s) :
    (check_description_quality d).1 = true := by
  rcases h with rfl | rfl | ⟨s, hs, rfl⟩
  · rfl
  · decide
  · simp only [scrape_failure_fixed, List.mem_cons, List.not_mem_nil, or_false] at hs
    rcases hs with rfl | rfl | rfl | rfl | rfl <;> decide

/-- C5 witness: the fixed placeholder "Scrape timeout" passes the
description filter. -/
theorem c5_fixed_placeholders_pass_witness :
    (check_description_quality (some "Scrape timeout")).1 = true :=
  c5_fixed_placeholders_pass (some "Scrape timeout")
    (Or.inr (Or.inr ⟨"Scrape timeout", by decide, rfl⟩))

/-- C2 counterexample: the claim states profit = target_list_price −
price, independent of description.  For a "dji mini 2" listing priced
at 120 the configured target is 127, so the claim predicts profit 7;
the code computes 155 (the midpoint 275 of the standard-bundle Vinted
range "£220-330" minus 120).  Moreover the profit is NOT independent of
the description: a description mentioning "fly more combo" reclassifies
the bundle and changes the profit to 240. -/
theorem c2_profit_not_target_minus_price :
    pricing_target "dji mini 2" = some 127
    ∧ notification_profit "dji mini 2" "dji mini 2 drone excellent condition" "" 120 = 155
    ∧ (155 : ℚ) ≠ 127 - 120
    ∧ notification_profit "dji mini 2" "dji mini 2 drone excellent condition"
        "Includes fly more combo" 120 = 240
    ∧ (240 : ℚ) ≠ 155 := by
  have hv1 : (get_market_data "dji mini 2" "dji mini 2 drone excellent condition" "").vinted
      = "£220-330" := by decide
  have hv2 : (get_market_data "dji mini 2" "dji mini 2 drone excellent condition"
      "Includes fly more combo").vinted = "£300-420" := by decide
  have hb1 : vinted_bounds "£220-330" = some (220, 330) := by decide
  have hb2 : vinted_bounds "£300-420" = some (300, 420) := by decide
  refine ⟨by decide, ?_, by norm_num, ?_, by norm_num⟩
  · unfold notification_profit
    rw [hv1]
    unfold vinted_avg
    rw [if_pos (by decide), hb1]
    show ((220 : ℚ) + 330) / 2 - 120 = 155
    norm_num
  · unfold notification_profit
    rw [hv2]
    unfold vinted_avg
    rw [if_pos (by decide), hb2]
    show ((300 : ℚ) + 420) / 2 - 120 = 240
    norm_num

/-- C2 amended: the profit attached to the notification equals the
midpoint of the Vinted resale range of the classified bundle minus the
listing price (and 0 when that range is missing or unparseable); it is
a function of the product key, the classified bundle and the price
only, so it varies with the description exactly through the bundle
classification — it is not target_list_price − price. -/
theorem c2_profit_is_vinted_midpoint (modelKey title description title2 description2 : String)
    (price : ℚ) :
    (∀ avg : ℚ, vinted_avg (get_market_data modelKey title description).vinted = some avg →
       notification_profit modelKey title description price = avg - price)
    ∧ (vinted_avg (get_market_data modelKey title description).vinted = none →
       notification_profit modelKey title description price = 0)
    ∧ (market_bundle modelKey title description = market_bundle modelKey title2 description2 →
       notification_profit modelKey title description price
         = notification_profit modelKey title2 description2 price) := by
  refine ⟨?_, ?_, ?_⟩
  · intro avg h
    unfold notification_profit
    rw [h]
  · intro h
    unfold notification_profit
    rw [h]
  · intro h
    unfold notification_profit get_market_data
    rw [h]

/-- C2 amended witness: for the concrete "dji mini 2" listing, the
profit equals the range midpoint 275 minus the price 120, and two
descriptions with the same bundle classification yield the same
profit. -/
theorem c2_profit_is_vinted_midpoint_witness :
    notification_profit "dji mini 2" "dji mini 2 drone excellent condition" "" 120 = 275 - 120
    ∧ notification_profit "dji mini 2" "dji mini 2 drone excellent condition" "" 120
        = notification_profit "dji mini 2" "dji mini 2 drone excellent condition"
            "great condition" 120 := by
  constructor
  · apply (c2_profit_is_vinted_midpoint "dji mini 2" "dji mini 2 drone excellent condition" ""
      "dji mini 2 drone excellent condition" "" 120).1 275
    have hv : (get_market_data "dji mini 2" "dji mini 2 drone excellent condition" "").vinted
        = "£220-330" := by decide
    rw [hv]
    unfold vinted_avg
    rw [if_pos (by decide)]
    have hb : vinted_bounds "£220-330" = some (220, 330) := by decide
    rw [hb]
    show some (((220 : ℚ) + 330) / 2) = some 275
    norm_num
  · exact (c2_profit_is_vinted_midpoint "dji mini 2" "dji mini 2 drone excellent condition" ""
      "dji mini 2 drone excellent condition" "great condition" 120).2.2 (by decide)

/-- C8 (quality score, modelled from the spec since no quality-score
code exists under src/): the score is exactly
`min 100 (50 + 10 * matched)` where `matched` counts the distinct
positive-indicator phrases found; hence it equals 50 on an absent or
empty description, always lies between the baseline 50 and the cap
100, and is monotone non-decreasing in the number of distinct
indicator phrases present. -/
theorem c8_quality_score_props (indicators : List String) (d d1 d2 : Option String)
    (hm : matched_indicators indicators d1 ≤ matched_indicators indicators d2) :
    quality_score indicators none = 50
    ∧ quality_score indicators (some "") = 50
    ∧ quality_score indicators d = min 100 (50 + 10 * matched_indicators indicators d)
    ∧ 50 ≤ quality_score indicators d
    ∧ quality_score indicators d ≤ 100
    ∧ quality_score indicators d1 ≤ quality_score indicators d2 := by
  have hform : ∀ e : Option String,
      quality_score indicators e = min 100 (50 + 10 * matched_indicators indicators e) := by
    intro e
    cases e with
    | none => simp [quality_score, matched_indicators]
    | some s =>
      by_cases hs : s = ""
      · simp [quality_score, matched_indicators, hs]
      · simp [quality_score, matched_indicators, hs]
  refine ⟨by simp [quality_score], by simp [quality_score], hform d, ?_, ?_, ?_⟩
  · rw [hform d]
    exact le_min (by norm_num) (Nat.le_add_right 50 _)
  · rw [hform d]
    exact min_le_left _ _
  · rw [hform d1, hform d2]
    exact min_le_min (le_refl 100) (by omega)

/-- C8 witness: with the indicator phrases of the worked example in the
spec ("mint", "box included"), the description
"Mint condition, box included" scores according to the formula (70)
and at least as high as the empty description (50). -/
theorem c8_quality_score_props_witness :
    quality_score ["mint", "box included"] none = 50
    ∧ quality_score ["mint", "box included"] (some "") = 50
    ∧ quality_score ["mint", "box included"] (some "Mint condition, box included")
        = min 100 (50 + 10 *
            matched_indicators ["mint", "box included"] (some "Mint condition, box included"))
    ∧ 50 ≤ quality_score ["mint", "box included"] (some "Mint condition, box included")
    ∧ quality_score ["mint", "box included"] (some "Mint condition, box included") ≤ 100
    ∧ quality_score ["mint", "box included"] (some "")
        ≤ quality_score ["mint", "box included"] (some "Mint condition, box included") :=
  c8_quality_score_props ["mint", "box included"]
    (some "Mint condition, box included") (some "")
    (some "Mint condition, box included") (by decide)

/-- C9: the bundle tag used for the market-data lookup is the
description-derived classification when it is not "standard", else the
title-derived classification; and a text containing none of the variant
markers ("creator", "creator edition", "fly more", "flymore", "combo",
"mk3", "mk 3", "mk2", "mk 2") classifies as the default "standard"
under both classifiers, for every product key. -/
theorem c9_bundle_precedence (modelKey title description text key : String)
    (h1 : inStr "creator" (lowerStr text) = false)
    (h2 : inStr "creator edition" (lowerStr text) = false)
    (h3 : inStr "fly more" (lowerStr text) = false)
    (h4 : inStr "flymore" (lowerStr text) = false)
    (h5 : inStr "combo" (lowerStr text) = false)
    (h6 : inStr "mk3" (lowerStr text) = false)
    (h7 : inStr "mk 3" (lowerStr text) = false)
    (h8 : inStr "mk2" (lowerStr text) = false)
    (h9 : inStr "mk 2" (lowerStr text) = false) :
    get_market_data modelKey title description
      = market_lookup modelKey
          (if parse_bundle_type_from_description description modelKey ≠ "standard" then
             parse_bundle_type_from_description description modelKey
           else parse_bundle_type_from_title title modelKey)
    ∧ parse_bundle_type_from_title text key = "standard"
    ∧ parse_bundle_type_from_description text key = "standard" := by
  refine ⟨rfl, ?_, ?_⟩
  · unfold parse_bundle_type_from_title
    simp [h1, h2, h3, h4, h5, h6, h7, h8, h9]
  · unfold parse_bundle_type_from_description
    simp [h1, h2, h3, h4, h5, h6, h7, h8, h9]

/-- C9 witness: a marker-free text classifies as "standard" for
"dji mini 2", and the concrete lookup obeys the precedence equation. -/
theorem c9_bundle_precedence_witness :
    get_market_data "dji mini 2" "dji mini 2 drone" ""
      = market_lookup "dji mini 2"
          (if parse_bundle_type_from_description "" "dji mini 2" ≠ "standard" then
             parse_bundle_type_from_description "" "dji mini 2"
           else parse_bundle_type_from_title "dji mini 2 drone" "dji mini 2")
    ∧ parse_bundle_type_from_title "dji mini 2 drone great" "dji mini 2" = "standard"
    ∧ parse_bundle_type_from_description "dji mini 2 drone great" "dji mini 2" = "standard" :=
  c9_bundle_precedence "dji mini 2" "dji mini 2 drone" "" "dji mini 2 drone great" "dji mini 2"
    (by decide) (by decide) (by decide) (by decide) (by decide) (by decide) (by decide)
    (by decide) (by decide)

/-- Helper for C7: the page loop, started anywhere, stops at the first
empty page, returning the accumulator plus the concatenation of all
earlier (nonempty) pages. -/
lemma search_pages_loop_stops_at_empty (search : Nat → List Nat) :
    ∀ (k page remaining : Nat) (acc : List Nat),
      k < remaining →
      (∀ i, i < k → search (page + i) ≠ []) →
      search (page + k) = [] →
      search_pages_loop search acc page remaining
        = acc ++ ((List.range k).map (fun i => search (page + i))).flatten := by
  intro k
  induction k with
  | zero =>
    intro page remaining acc hlt hne he
    cases remaining with
    | zero => omega
    | succ r =>
      unfold search_pages_loop
      rw [if_pos (by simpa using he)]
      simp
  | succ k ih =>
    intro page remaining acc hlt hne he
    cases remaining with
    | zero => omega
    | succ r =>
      unfold search_pages_loop
      rw [if_neg (by simpa using hne 0 (Nat.succ_pos k))]
      have hne2 : ∀ i, i < k → search (page + 1 + i) ≠ [] := by
        intro i hi
        have := hne (i + 1) (by omega)
        simpa [Nat.add_assoc, Nat.add_comm 1 i] using this
      have he2 : search (page + 1 + k) = [] := by
        have := he
        simpa [Nat.add_assoc, Nat.add_comm 1 k] using this
      rw [ih (page + 1) r (acc ++ search page) (by omega) hne2 he2]
      have hr : (List.range (k + 1)).map (fun i => search (page + i))
          = search page :: (List.range k).map (fun i => search (page + 1 + i)) := by
        rw [List.range_succ_eq_map, List.map_cons, List.map_map]
        congr 1
        apply List.map_congr_left
        intro i _
        show search (page + (i + 1)) = search (page + 1 + i)
        congr 1
        omega
      rw [hr, List.flatten_cons, List.append_assoc]

/-- C7 amended: pagination stops at the FIRST EMPTY page (or after the
page cap), returning the concatenation of all pages collected so far;
a page returning fewer than a full page of results does NOT stop
pagination (see the counterexample). -/
theorem c7_stops_at_first_empty_page (search : Nat → List Nat) (k maxPages : Nat)
    (hk : k < maxPages)
    (hne : ∀ i, i < k → search (1 + i) ≠ [])
    (he : search (1 + k) = []) :
    search_with_pagination search maxPages
      = ((List.range k).map (fun i => search (1 + i))).flatten := by
  unfold search_with_pagination
  rw [search_pages_loop_stops_at_empty search k 1 maxPages [] hk hne he]
  simp

/-- A search oracle whose page 1 returns 2 items (fewer than the full
page size of 40), page 2 returns 1 item, and every later page is
empty. -/
def c7_search_example : Nat → List Nat := fun p =>
  if p = 1 then [1, 2] else if p = 2 then [3] else []

/-- C7 counterexample: page 1 returns fewer than a full page
(2 < `ITEMS_PER_PAGE` = 40), yet pagination does NOT stop there — page
2 is still fetched and its item collected, so the result is [1, 2, 3],
not the [1, 2] the claim predicts.  The loop in the source compares
against nothing but emptiness and the page cap. -/
theorem c7_partial_page_does_not_stop :
    (c7_search_example 1).length < ITEMS_PER_PAGE
    ∧ search_with_pagination c7_search_example MAX_PAGES_PER_SEARCH = [1, 2, 3]
    ∧ search_with_pagination c7_search_example MAX_PAGES_PER_SEARCH ≠ [1, 2] := by decide

/-- C7 witness: the example search stops at its first empty page
(page 3), returning the two earlier pages concatenated. -/
theorem c7_stops_at_first_empty_page_witness :
    search_with_pagination c7_search_example MAX_PAGES_PER_SEARCH
      = ((List.range 2).map (fun i => c7_search_example (1 + i))).flatten :=
  c7_stops_at_first_empty_page c7_search_example 2 MAX_PAGES_PER_SEARCH (by decide)
    (by intro i hi; interval_cases i <;> decide) (by decide)

/-- An already-tracked listing is skipped with no other effect. -/
lemma process_item_skip (k : String) (tr : List Nat) (l : Listing) (h : l.id ∈ tr) :
    process_item k tr l = (tr, [Event.skipTracked l.id]) := by
  unfold process_item
  rw [if_pos h]

/-- Processing a listing never removes a tracked id. -/
lemma process_item_mem (k : String) (tr : List Nat) (l : Listing) (x : Nat) (h : x ∈ tr) :
    x ∈ (process_item k tr l).1 := by
  unfold process_item
  split_ifs <;> simp [h]

/-- A cycle never removes a tracked id. -/
lemma run_cycle_mem (k : String) (x : Nat) :
    ∀ (items : List Listing) (tr : List Nat), x ∈ tr → x ∈ (run_cycle k tr items).1 := by
  intro items
  induction items with
  | nil => intro tr h; simpa [run_cycle] using h
  | cons l rest ih =>
    intro tr h
    unfold run_cycle
    exact ih _ (process_item_mem k tr l x h)

/-- Processing a listing preserves distinctness of tracked ids. -/
lemma process_item_nodup (k : String) (tr : List Nat) (l : Listing) (h : tr.Nodup) :
    (process_item k tr l).1.Nodup := by
  unfold process_item
  split_ifs with h1 h2 h3 <;> simp_all [List.nodup_append]

/-- A cycle preserves distinctness of tracked ids. -/
lemma run_cycle_nodup (k : String) :
    ∀ (items : List Listing) (tr : List Nat), tr.Nodup → ((run_cycle k tr items).1).Nodup := by
  intro items
  induction items with
  | nil => intro tr h; simpa [run_cycle] using h
  | cons l rest ih =>
    intro tr h
    unfold run_cycle
    exact ih _ (process_item_nodup k tr l h)

/-- A listing that is already tracked or fails a content filter causes
no insertion and leaves the state unchanged. -/
lemma process_item_no_insert (k : String) (tr : List Nat) (l : Listing)
    (h : l.id ∈ tr ∨ passes_filters k l = false) :
    (process_item k tr l).1 = tr ∧ ∀ i, Event.insert i ∉ (process_item k tr l).2 := by
  unfold process_item
  unfold passes_filters at h
  rcases h with h | h
  · rw [if_pos h]
    simp
  · split_ifs with h1 h2 h3
    · simp
    · simp
    · simp
    · exfalso
      simp_all

/-- A listing that passes both filters ends up tracked. -/
lemma process_item_pass_mem (k : String) (tr : List Nat) (l : Listing)
    (hp : passes_filters k l = true) : l.id ∈ (process_item k tr l).1 := by
  unfold process_item
  unfold passes_filters at hp
  split_ifs with h1 h2 h3 <;> simp_all

/-- After a cycle, every processed listing is either tracked or fails a
content filter. -/
lemma run_cycle_covers (k : String) :
    ∀ (items : List Listing) (tr : List Nat) (l : Listing), l ∈ items →
      l.id ∈ (run_cycle k tr items).1 ∨ passes_filters k l = false := by
  intro items
  induction items with
  | nil => intro tr l h; cases h
  | cons l0 rest ih =>
    intro tr l h
    rcases List.mem_cons.mp h with rfl | h2
    · by_cases hp : passes_filters k l = true
      · left
        unfold run_cycle
        exact run_cycle_mem k l.id rest _ (process_item_pass_mem k tr l hp)
      · right
        exact Bool.eq_false_iff.mpr (by simpa using hp)
    · unfold run_cycle
      exact ih (process_item k tr l0).1 l h2

/-- A cycle whose every listing is already tracked or filter-failing
changes nothing and emits no insert event. -/
lemma run_cycle_stable (k : String) :
    ∀ (items : List Listing) (tr : List Nat),
      (∀ l ∈ items, l.id ∈ tr ∨ passes_filters k l = false) →
      (run_cycle k tr items).1 = tr ∧ ∀ i, Event.insert i ∉ (run_cycle k tr items).2 := by
  intro items
  induction items with
  | nil => intro tr h; exact ⟨rfl, by simp [run_cycle]⟩
  | cons l0 rest ih =>
    intro tr h
    have hni := process_item_no_insert k tr l0 (h l0 (List.mem_cons_self l0 rest))
    unfold run_cycle
    rw [hni.1]
    have hrest := ih tr (fun l hl => h l (List.mem_cons_of_mem l0 hl))
    refine ⟨hrest.1, ?_⟩
    intro i
    simp only [List.mem_append, not_or]
    exact ⟨hni.2 i, hrest.2 i⟩

/-- C3: an already-tracked listing id is silently skipped before any
filtering, insertion or notification (its only event is the skip); the
tracked ids stay duplicate-free through a cycle, so no listing id ever
has two rows; and re-running the identical cycle on the resulting state
changes nothing and performs no insertion. -/
theorem c3_dedup_total (modelKey : String) (tracked : List Nat) (items : List Listing)
    (l : Listing) (hmem : l.id ∈ tracked) (hnd : tracked.Nodup) :
    process_item modelKey tracked l = (tracked, [Event.skipTracked l.id])
    ∧ ((run_cycle modelKey tracked items).1).Nodup
    ∧ (run_cycle modelKey (run_cycle modelKey tracked items).1 items).1
        = (run_cycle modelKey tracked items).1
    ∧ ∀ i, Event.insert i ∉ (run_cycle modelKey (run_cycle modelKey tracked items).1 items).2 := by
  have hstab := run_cycle_stable modelKey items (run_cycle modelKey tracked items).1
    (fun l2 h2 => run_cycle_covers modelKey items tracked l2 h2)
  exact ⟨process_item_skip modelKey tracked l hmem,
    run_cycle_nodup modelKey items tracked hnd, hstab.1, hstab.2⟩

/-- C3 witness: with id 101 already tracked, the listing with id 101 is
skipped; a cycle over one passing (102) and one rejected (103) listing
keeps ids distinct; and the identical second cycle re-inserts
nothing. -/
theorem c3_dedup_total_witness :
    process_item "dji mini 2" [101]
        { id := 101, title := "dji mini 2 drone great", price := 100,
          description := "excellent condition", notifyOk := true }
      = ([101], [Event.skipTracked 101])
    ∧ ((run_cycle "dji mini 2" [101]
          [{ id := 102, title := "dji mini 2 drone great", price := 100,
             description := "excellent condition", notifyOk := true },
           { id := 103, title := "dji mini 2 case", price := 10,
             description := "", notifyOk := true }]).1).Nodup
    ∧ (run_cycle "dji mini 2"
          (run_cycle "dji mini 2" [101]
            [{ id := 102, title := "dji mini 2 drone great", price := 100,
               description := "excellent condition", notifyOk := true },
             { id := 103, title := "dji mini 2 case", price := 10,
               description := "", notifyOk := true }]).1
          [{ id := 102, title := "dji mini 2 drone great", price := 100,
             description := "excellent condition", notifyOk := true },
           { id := 103, title := "dji mini 2 case", price := 10,
             description := "", notifyOk := true }]).1
        = (run_cycle "dji mini 2" [101]
            [{ id := 102, title := "dji mini 2 drone great", price := 100,
               description := "excellent condition", notifyOk := true },
             { id := 103, title := "dji mini 2 case", price := 10,
               description := "", notifyOk := true }]).1
    ∧ ∀ i, Event.insert i ∉ (run_cycle "dji mini 2"
          (run_cycle "dji mini 2" [101]
            [{ id := 102, title := "dji mini 2 drone great", price := 100,
               description := "excellent condition", notifyOk := true },
             { id := 103, title := "dji mini 2 case", price := 10,
               description := "", notifyOk := true }]).1
          [{ id := 102, title := "dji mini 2 drone great", price := 100,
             description := "excellent condition", notifyOk := true },
           { id := 103, title := "dji mini 2 case", price := 10,
             description := "", notifyOk := true }]).2 :=
  c3_dedup_total "dji mini 2" [101]
    [{ id := 102, title := "dji mini 2 drone great", price := 100,
       description := "excellent condition", notifyOk := true },
     { id := 103, title := "dji mini 2 case", price := 10,
       description := "", notifyOk := true }]
    { id := 101, title := "dji mini 2 drone great", price := 100,
      description := "excellent condition", notifyOk := true }
    (by decide) (by decide)

/-- C6: a listing that reaches the persistence stage (new id, both
filters pass) produces the event trace [insert, notify]: the insert is
executed BEFORE the notification is attempted, the row is present
whatever the notification outcome (`l.notifyOk` is arbitrary, and the
resulting state `tracked ++ [l.id]` does not mention it), and tracked
rows are never removed by the rest of the cycle, so the row persists to
the commit at cycle end. -/
theorem c6_insert_before_notify (modelKey : String) (tracked pre : List Nat)
    (items : List Listing) (l : Listing)
    (hnew : l.id ∉ tracked)
    (htitle : (strict_product_match l.title modelKey).1 = true)
    (hdesc : (check_description_quality (some l.description)).1 = true) :
    process_item modelKey tracked l
      = (tracked ++ [l.id], [Event.insert l.id, Event.notify l.id l.notifyOk])
    ∧ l.id ∈ (process_item modelKey tracked l).1
    ∧ (∀ x ∈ pre, x ∈ (run_cycle modelKey pre items).1) := by
  have hp : process_item modelKey tracked l
      = (tracked ++ [l.id], [Event.insert l.id, Event.notify l.id l.notifyOk]) := by
    unfold process_item
    rw [if_neg hnew, if_neg (by simp [htitle]), if_neg (by simp [hdesc])]
  exact ⟨hp, by rw [hp]; simp, fun x hx => run_cycle_mem modelKey x items pre hx⟩

/-- C6 witness: a passing listing whose Discord notification FAILS
(`notifyOk = false`) is still inserted, with the insert event preceding
the notify event. -/
theorem c6_insert_before_notify_witness :
    process_item "dji mini 2" [101]
        { id := 102, title := "dji mini 2 drone great", price := 100,
          description := "excellent condition", notifyOk := false }
      = ([101] ++ [102], [Event.insert 102, Event.notify 102 false])
    ∧ 102 ∈ (process_item "dji mini 2" [101]
        { id := 102, title := "dji mini 2 drone great", price := 100,
          description := "excellent condition", notifyOk := false }).1
    ∧ (∀ x ∈ [7], x ∈ (run_cycle "dji mini 2" [7] []).1) :=
  c6_insert_before_notify "dji mini 2" [101] [7] []
    { id := 102, title := "dji mini 2 drone great", price := 100,
      description := "excellent condition", notifyOk := false }
    (by decide) (by decide) (by decide)
